import Mathlib

/-! AuthMate: the login form (`src/pages/Login.jsx`)

A shallow embedding of the two event handlers of the `Login` component,
`handleChange` and `handleSubmit`, and of the form they drive.

* JavaScript values are the data values a handler can meet here: `undefined`,
  `null`, booleans, numbers, strings, arrays and plain objects with data
  properties. Functions, symbols, bigints and objects with accessors or
  proxies are left out: a response body is parsed JSON, and the errors met
  are error objects carrying `message` and, for a rejected request that got
  an answer, `response`.
* A handler run is a trace of the effects it performs on its collaborators
  (the two state setters, `axios.post`, `dispatch`, `navigate`) together with
  how the run ended.
* The collaborators that are imported from outside the file (`axios`,
  `dispatch`, `login`, `navigate`, `conf`) are not modelled beyond the call
  made to them: a call is recorded in the trace and returns normally, and the
  settlement of `axios.post` is an input of the model.
* Every handler runs against the state of the latest render, which is how the
  component is driven by discrete DOM events.
-/

namespace Login

/-! ## JavaScript values -/

/-- A JavaScript string: a finite sequence of UTF-16 code units. -/
abbrev JSString := List Nat

/-- The code units of a string literal of the source (all of them are ASCII). -/
def lit (s : String) : JSString := s.toList.map Char.toNat

/-- The data values of JavaScript. A number is kept as the bit pattern of its
IEEE-754 double, read modulo `2 ^ 64`; an object is the list of its own
properties in insertion order. -/
inductive JSValue where
  | undefined
  | null
  | bool (b : Bool)
  | num (bits : Nat)
  | str (s : JSString)
  | arr (items : List JSValue)
  | obj (props : List (JSString × JSValue))

namespace JSValue

/-- The number is `+0` or `-0`: every bit but the sign bit is clear. -/
def isZeroBits (bits : Nat) : Bool := (bits % 2 ^ 64) % 2 ^ 63 == 0

/-- The number is a NaN: exponent all ones, fraction not zero. -/
def isNaNBits (bits : Nat) : Bool :=
  ((bits % 2 ^ 64) / 2 ^ 52) % 2 ^ 11 == 2047 && ((bits % 2 ^ 64) % 2 ^ 52 != 0)

/-- ECMAScript `ToBoolean`: what `!x`, `x || y` and `if (x)` test. -/
def truthy : JSValue → Bool
  | undefined => false
  | null => false
  | bool b => b
  | num bits => !(isZeroBits bits) && !(isNaNBits bits)
  | str s => !s.isEmpty
  | arr _ => true
  | obj _ => true

/-- The value is `undefined` or `null`. -/
def isNullish : JSValue → Bool
  | undefined => true
  | null => true
  | _ => false

/-- The own property `k` of a list of properties, `undefined` when absent. -/
def getKey (props : List (JSString × JSValue)) (k : JSString) : JSValue :=
  (props.lookup k).getD undefined

/-- The read `v.k` of a named property on a value that is not nullish. The
names this component reads (`response`, `data`, `message`,
`non_field_errors`, `access`, `refresh`) are defined on no built-in
prototype, so only a plain object can answer with something else than
`undefined`. -/
def getProp : JSValue → JSString → JSValue
  | obj props, k => getKey props k
  | _, _ => undefined

/-- The read `v[0]` on a value that is not nullish: the first element of an
array, the first code unit of a string, the property `"0"` of an object. -/
def getIndex0 : JSValue → JSValue
  | arr (x :: _) => x
  | str (c :: _) => str [c]
  | obj props => getKey props (lit "0")
  | _ => undefined

/-- Optional chaining `v?.k`. -/
def optProp (v : JSValue) (k : JSString) : JSValue :=
  if isNullish v then undefined else getProp v k

/-- Optional chaining `v?.[0]`. -/
def optIndex0 (v : JSValue) : JSValue :=
  if isNullish v then undefined else getIndex0 v

/-- The operator `a || b`. -/
def orElse (a b : JSValue) : JSValue := if truthy a then a else b

end JSValue

open JSValue

/-! ## The component state -/

/-- The object held by `useState({ email: '', password: '' })`: its own
properties. -/
abbrev FormData := List (JSString × JSValue)

/-- The object held by `useState({ message: '', error: '', loading: false })`.
`message` and `loading` are only ever written from literals of the source;
`error` receives whatever value the `||` chain of the `catch` block picks. -/
structure AuthUIState where
  message : JSString
  error : JSValue
  loading : Bool

/-- The initial FormData, line 34. -/
def initialFormData : FormData := [(lit "email", str []), (lit "password", str [])]

/-- The initial AuthUIState, line 35. -/
def initialAuthState : AuthUIState := ⟨[], str [], false⟩

/-- The object literal with a spread and a computed key: an existing key keeps
its place and takes the new value, a new key is appended. -/
def setKey (k : JSString) (v : JSValue) : FormData → FormData
  | [] => [(k, v)]
  | (k0, v0) :: rest => if k0 == k then (k, v) :: rest else (k0, v0) :: setKey k v rest

/-! ## Effects and runs -/

/-- What a handler does to its collaborators. `suspend` marks the `await`: the
handler has issued the call and waits for it to settle. -/
inductive Effect where
  | preventDefault
  | setAuthState (s : AuthUIState)
  | post (url : JSString) (body : JSValue)
  | suspend
  | dispatchLogin (payload : JSValue)
  | navigate (path : JSString)

/-- How a run of a block ended: normally, by a thrown value, or suspended at
the `await` because the call has not settled yet. -/
inductive Completion (α : Type) where
  | done (a : α)
  | thrown (err : JSValue)
  | pending

/-- A run: the effects performed, in order, and how the run ended. -/
structure Run (α : Type) where
  trace : List Effect
  completion : Completion α

namespace Run

/-- A run that performs nothing and ends with `a`. -/
def ret {α : Type} (a : α) : Run α := ⟨[], .done a⟩

/-- A run that performs one effect. -/
def emit (e : Effect) : Run Unit := ⟨[e], .done ()⟩

/-- The statement `throw err`. -/
def throw {α : Type} (err : JSValue) : Run α := ⟨[], .thrown err⟩

/-- Sequencing: the second block runs only when the first ended normally. -/
def bind {α β : Type} (r : Run α) (f : α → Run β) : Run β :=
  match r.completion with
  | .done a => ⟨r.trace ++ (f a).trace, (f a).completion⟩
  | .thrown err => ⟨r.trace, .thrown err⟩
  | .pending => ⟨r.trace, .pending⟩

/-- The statement `try body catch (err) handler`: a value thrown by the body is
handed to the handler, whose own completion is that of the statement. -/
def tryCatch {α : Type} (body : Run α) (handler : JSValue → Run α) : Run α :=
  match body.completion with
  | .done a => ⟨body.trace, .done a⟩
  | .thrown err => ⟨body.trace ++ (handler err).trace, (handler err).completion⟩
  | .pending => ⟨body.trace, .pending⟩

end Run

instance : Monad Run where
  pure := Run.ret
  bind := Run.bind

/-! ## The environment of a submission -/

/-- The two places of the `try` block where the engine raises a `TypeError`
on a nullish value. -/
inductive Site where
  | readData
  | destructureTokens

/-- What the handlers take from outside the file: the configured base URL
(`conf.prodBaseUrl`, a string) and the message text the JavaScript engine
gives to a `TypeError`, which the language leaves to the engine. -/
structure Env where
  prodBaseUrl : JSString
  typeErrorMessage : Site → JSValue → JSString

/-- How the outbound call settles. -/
inductive Outcome where
  | resolved (response : JSValue)
  | rejected (err : JSValue)

/-- An error object: `new Error(msg)`, or the engine's `TypeError`. The only
properties the `catch` block reads are `response`, which such an object does
not have, and `message`. -/
def mkError (msg : JSString) : JSValue := obj [(lit "message", str msg)]

/-- The expression `await axios.post(url, body)`: the call is issued and the
handler suspends; when the call has settled it continues with the response or
throws the rejection. -/
def axiosPost (o : Option Outcome) (url : JSString) (body : JSValue) : Run JSValue :=
  match o with
  | none => ⟨[.post url body, .suspend], .pending⟩
  | some (.resolved response) => ⟨[.post url body, .suspend], .done response⟩
  | some (.rejected err) => ⟨[.post url body, .suspend], .thrown err⟩

/-- The read `response.data`, which throws on a nullish `response`. -/
def readData (env : Env) (response : JSValue) : Run JSValue :=
  if isNullish response then
    Run.throw (mkError (env.typeErrorMessage .readData response))
  else
    Run.ret (getProp response (lit "data"))

/-- The destructuring `const { access, refresh } = data`, which throws on a
nullish `data`. -/
def destructureTokens (env : Env) (data : JSValue) : Run (JSValue × JSValue) :=
  if isNullish data then
    Run.throw (mkError (env.typeErrorMessage .destructureTokens data))
  else
    Run.ret (getProp data (lit "access"), getProp data (lit "refresh"))

/-! ## The handlers -/

/-- The state of the rendered form: the two `useState` cells and the
submissions whose call has not settled, each with the FormData its handler
captured. -/
structure FormState where
  formData : FormData
  authState : AuthUIState
  inFlight : List FormData

/-- The handler `handleChange`, lines 37-44, on a change event of the input
`name` carrying `value`. -/
def handleChange (st : FormState) (name value : JSString) : FormState :=
  let formData := setKey name (str value) st.formData
  if truthy st.authState.error then
    { st with formData := formData, authState := { st.authState with error := str [] } }
  else
    { st with formData := formData }

/-- The fixed success message, line 61. -/
def successState : AuthUIState := ⟨lit "Login successful!", str [], false⟩

/-- The state written at the start of a submission, line 48. -/
def loadingState : AuthUIState := ⟨[], str [], true⟩

/-- The body of the `try` block, lines 51-62. -/
def tryBlock (env : Env) (formData : FormData) (o : Option Outcome) : Run Unit := do
  let email := getKey formData (lit "email")
  let password := getKey formData (lit "password")
  let url := env.prodBaseUrl ++ lit "/api/auth/jwt/create/"
  let response ← axiosPost o url (obj [(lit "email", email), (lit "password", password)])
  let data ← readData env response
  let (access, refresh) ← destructureTokens env data
  if !truthy access || !truthy refresh then
    Run.throw (mkError (lit "Access or Refresh token is missing"))
  else do
    Run.emit (.dispatchLogin (obj [(lit "access", access), (lit "refresh", refresh)]))
    Run.emit (.setAuthState successState)
    Run.emit (.navigate (lit "/dashboard"))

/-- The expression of line 64 that picks the displayed error. -/
def errorMsg (err : JSValue) : JSValue :=
  JSValue.orElse
    (JSValue.orElse
      (optIndex0 (optProp (optProp (optProp err (lit "response")) (lit "data"))
        (lit "non_field_errors")))
      (optProp err (lit "message")))
    (str (lit "An error occurred. Please try again."))

/-- The `catch` block, lines 64-65. -/
def catchBlock (err : JSValue) : Run Unit :=
  Run.emit (.setAuthState ⟨[], errorMsg err, false⟩)

/-- The handler `handleSubmit`, lines 46-67. With `o = none` the run is the
part of the handler that precedes the settlement of the call. -/
def handleSubmit (env : Env) (formData : FormData) (o : Option Outcome) : Run Unit := do
  Run.emit .preventDefault
  Run.emit (.setAuthState loadingState)
  Run.tryCatch (tryBlock env formData o) catchBlock

/-! ## The rendered form as a transition system -/

/-- What an effect does to the `authState` cell: `setAuthState` with an object
replaces it, every other effect leaves it alone. -/
def applyAuth (s : AuthUIState) : Effect → AuthUIState
  | .setAuthState t => t
  | _ => s

/-- The `authState` cell after the effects of a trace, from `prior`. -/
def finalAuthState (prior : AuthUIState) (trace : List Effect) : AuthUIState :=
  trace.foldl applyAuth prior

/-- The attribute `disabled={authState.loading}` of the submit button,
line 129. -/
def submitDisabled (s : AuthUIState) : Bool := s.loading

/-- The form as first rendered. -/
def initialState : FormState := ⟨initialFormData, initialAuthState, []⟩

/-- What can happen to the rendered form: a keystroke in an input, a submit of
the form, the settlement of the call of the in-flight submission number `i`. -/
inductive Event where
  | change (name value : JSString)
  | submit
  | settle (i : Nat) (o : Outcome)

/-- The effects of `handleSubmit` that follow the settlement of its call. -/
def resumeTrace (env : Env) (formData : FormData) (o : Outcome) : List Effect :=
  (handleSubmit env formData (some o)).trace.drop (handleSubmit env formData none).trace.length

/-- One step of the form. A keystroke is always possible; a submit only while
the button is not disabled, and it runs `handleSubmit` up to its `await`; a
settlement only for a submission in flight, and it runs the rest of that
handler. -/
def step (env : Env) (st : FormState) : Event → Option FormState
  | .change name value => some (handleChange st name value)
  | .submit =>
    if submitDisabled st.authState then none
    else
      let r := handleSubmit env st.formData none
      some { st with
        authState := finalAuthState st.authState r.trace,
        inFlight := match r.completion with
          | .pending => st.inFlight ++ [st.formData]
          | _ => st.inFlight }
  | .settle i o =>
    match st.inFlight[i]? with
    | none => none
    | some formData =>
      some { st with
        authState := finalAuthState st.authState (resumeTrace env formData o),
        inFlight := st.inFlight.eraseIdx i }

/-- The state after a sequence of events, when each of them was possible. -/
def run (env : Env) (st : FormState) : List Event → Option FormState
  | [] => some st
  | e :: es => (step env st e).bind fun st1 => run env st1 es

/-! ## Vocabulary of the specification -/

/-- The access token a response body carries, `response?.data?.access`. -/
def accessOf (response : JSValue) : JSValue :=
  optProp (optProp response (lit "data")) (lit "access")

/-- The refresh token a response body carries, `response?.data?.refresh`. -/
def refreshOf (response : JSValue) : JSValue :=
  optProp (optProp response (lit "data")) (lit "refresh")

/-- The call succeeded: it resolved and its body carries both tokens, neither
of them empty. -/
def succeeds : Outcome → Bool
  | .resolved response => truthy (accessOf response) && truthy (refreshOf response)
  | .rejected _ => false

/-- The requests a trace issues, in order. -/
def postsOf : List Effect → List (JSString × JSValue)
  | [] => []
  | .post url body :: rest => (url, body) :: postsOf rest
  | _ :: rest => postsOf rest

/-- The writes a trace makes to the `authState` cell, in order. -/
def authWrites : List Effect → List AuthUIState
  | [] => []
  | .setAuthState s :: rest => s :: authWrites rest
  | _ :: rest => authWrites rest

/-- The session hand-offs of a trace, in order. -/
def dispatchesOf : List Effect → List JSValue
  | [] => []
  | .dispatchLogin payload :: rest => payload :: dispatchesOf rest
  | _ :: rest => dispatchesOf rest

/-- The navigations of a trace, in order. -/
def navigationsOf : List Effect → List JSString
  | [] => []
  | .navigate path :: rest => path :: navigationsOf rest
  | _ :: rest => navigationsOf rest

/-- The request `handleSubmit` is specified to issue for a FormData. -/
def loginRequest (env : Env) (formData : FormData) : Effect :=
  .post (env.prodBaseUrl ++ lit "/api/auth/jwt/create/")
    (obj [(lit "email", getKey formData (lit "email")),
      (lit "password", getKey formData (lit "password"))])

/-- The server-supplied field-level error of a raised error,
`err?.response?.data?.non_field_errors?.[0]`. -/
def firstNonFieldError (err : JSValue) : JSValue :=
  optIndex0 (optProp (optProp (optProp err (lit "response")) (lit "data"))
    (lit "non_field_errors"))

/-- The displayed error as the specification words it: the field-level error
when there is a non-empty one, otherwise the message of the error when it is
not empty, otherwise the fixed fallback. -/
def preferredMessage (err : JSValue) : JSValue :=
  if truthy (firstNonFieldError err) then firstNonFieldError err
  else if truthy (optProp err (lit "message")) then optProp err (lit "message")
  else str (lit "An error occurred. Please try again.")

/-- The value of the last change event of the input `name`, the empty string
when there is none. -/
def lastValue (name : JSString) (events : List (JSString × JSString)) : JSString :=
  match (events.filter fun e => e.1 == name).getLast? with
  | some e => e.2
  | none => []

/-- The form after a sequence of keystrokes, each handled by `handleChange`. -/
def typeAll (st : FormState) (events : List (JSString × JSString)) : FormState :=
  events.foldl (fun s e => handleChange s e.1 e.2) st

/-! ## Scenarios of the specification -/

/-- A base URL and an engine to run the scenarios with. -/
def scenarioEnv : Env :=
  ⟨lit "https://api.example.com", fun _ _ => lit "Cannot read properties of undefined"⟩

/-- The FormData `{ email: 'user@example.com', password: 'secret1' }`. -/
def scenarioForm : FormData :=
  [(lit "email", str (lit "user@example.com")), (lit "password", str (lit "secret1"))]

/-- The response whose body is `{ access: 'A', refresh: 'R' }`. -/
def tokenResponse : JSValue :=
  obj [(lit "data", obj [(lit "access", str (lit "A")), (lit "refresh", str (lit "R"))])]

/-- A response whose body is `{ access: 'A' }`, without a refresh token. -/
def accessOnlyResponse : JSValue :=
  obj [(lit "data", obj [(lit "access", str (lit "A"))])]

/-- The rejection of a response with an error status whose body is
`{ non_field_errors: ['Invalid credentials'] }`; the error has `message` as
its own message. -/
def invalidCredentials (message : JSValue) : JSValue :=
  obj [(lit "message", message),
    (lit "response", obj [(lit "data",
      obj [(lit "non_field_errors", arr [str (lit "Invalid credentials")])])])]

/-- The rejection with no response object and the message `Network Error`. -/
def networkError : JSValue := obj [(lit "message", str (lit "Network Error"))]

/-- The form while the call of a first submission is pending. -/
def pendingForm : FormState := ⟨initialFormData, loadingState, [initialFormData]⟩

/-- The form after a submission that failed with a network error. -/
def failedForm : FormState :=
  ⟨initialFormData, ⟨[], str (lit "Network Error"), false⟩, []⟩

/-- What holds of the form in every state it can reach: the message and the
error are not both set, the error is the empty string or a value that is not
empty, and a submission is in flight exactly while `loading` is true, one at
most. -/
def Consistent (st : FormState) : Prop :=
  (st.authState.message = [] ∨ st.authState.error = str []) ∧
    (st.authState.error = str [] ∨ truthy st.authState.error = true) ∧
    st.inFlight.length = if st.authState.loading then 1 else 0

/-! ## Lemmas on the handlers -/

theorem Run.bind_eq {α β : Type} (r : Run α) (f : α → Run β) : (r >>= f) = Run.bind r f := rfl

/-- The handler up to its `await`. -/
theorem handleSubmit_pending (env : Env) (fd : FormData) :
    handleSubmit env fd none =
      ⟨[.preventDefault, .setAuthState loadingState, loginRequest env fd, .suspend], .pending⟩ := by
  simp [handleSubmit, tryBlock, Run.bind_eq, Run.bind, Run.emit, Run.tryCatch, axiosPost,
    loginRequest]

/-- The `try` block when the call is rejected. -/
theorem tryBlock_rejected (env : Env) (fd : FormData) (err : JSValue) :
    tryBlock env fd (some (.rejected err)) = ⟨[loginRequest env fd, .suspend], .thrown err⟩ := by
  simp [tryBlock, Run.bind_eq, Run.bind, axiosPost, loginRequest]

/-- The `try` block when the call resolves with both tokens. -/
theorem tryBlock_success (env : Env) (fd : FormData) (response : JSValue)
    (h : succeeds (.resolved response) = true) :
    tryBlock env fd (some (.resolved response)) =
      ⟨[loginRequest env fd, .suspend,
        .dispatchLogin (obj [(lit "access", accessOf response),
          (lit "refresh", refreshOf response)]),
        .setAuthState successState, .navigate (lit "/dashboard")], .done ()⟩ := by
  simp only [succeeds, accessOf, refreshOf, Bool.and_eq_true] at h
  obtain ⟨ha, hr⟩ := h
  cases response <;> simp [optProp, isNullish, getProp, truthy] at ha hr
  rename_i props
  generalize hd : getKey props (lit "data") = data at ha hr
  cases data <;> simp [optProp, isNullish, getProp, truthy] at ha hr
  all_goals
    simp [tryBlock, Run.bind_eq, Run.bind, Run.emit, axiosPost, readData,
      destructureTokens, isNullish, getProp, hd, ha, hr, truthy, Run.ret, loginRequest,
      accessOf, refreshOf, optProp]

/-- The `try` block when the call resolves without both tokens: it throws an
error object that has a message and nothing else. -/
theorem tryBlock_missing (env : Env) (fd : FormData) (response : JSValue)
    (h : succeeds (.resolved response) = false) :
    ∃ m : JSString, tryBlock env fd (some (.resolved response)) =
      ⟨[loginRequest env fd, .suspend], .thrown (mkError m)⟩ := by
  by_cases h1 : isNullish response = true
  · exact ⟨env.typeErrorMessage .readData response, by
      simp [tryBlock, Run.bind_eq, Run.bind, axiosPost, readData, h1, Run.throw, loginRequest]⟩
  · by_cases h2 : isNullish (getProp response (lit "data")) = true
    · exact ⟨env.typeErrorMessage .destructureTokens (getProp response (lit "data")), by
        simp [tryBlock, Run.bind_eq, Run.bind, axiosPost, readData, destructureTokens, h1, h2,
          Run.throw, Run.ret, loginRequest]⟩
    · refine ⟨lit "Access or Refresh token is missing", ?_⟩
      have ha : accessOf response = getProp (getProp response (lit "data")) (lit "access") := by
        simp [accessOf, optProp, h1, h2]
      have hr : refreshOf response = getProp (getProp response (lit "data")) (lit "refresh") := by
        simp [refreshOf, optProp, h1, h2]
      have h3 : truthy (getProp (getProp response (lit "data")) (lit "access")) = false ∨
          truthy (getProp (getProp response (lit "data")) (lit "refresh")) = false := by
        rw [succeeds, ha, hr] at h
        revert h
        cases truthy (getProp (getProp response (lit "data")) (lit "access")) <;>
          cases truthy (getProp (getProp response (lit "data")) (lit "refresh")) <;> simp
      simp only [Bool.not_eq_true] at h1 h2
      simp [tryBlock, Run.bind_eq, Run.bind, axiosPost, readData, destructureTokens, h1, h2,
        Run.throw, Run.ret, loginRequest, h3]

/-- The handler when its `try` block throws. -/
theorem handleSubmit_of_thrown (env : Env) (fd : FormData) (o : Option Outcome)
    (tr : List Effect) (err : JSValue) (h : tryBlock env fd o = ⟨tr, .thrown err⟩) :
    handleSubmit env fd o =
      ⟨[.preventDefault, .setAuthState loadingState] ++ tr ++
        [.setAuthState ⟨[], errorMsg err, false⟩], .done ()⟩ := by
  simp [handleSubmit, Run.bind_eq, Run.bind, Run.emit, Run.tryCatch, h, catchBlock]

/-- The handler when its `try` block ends normally. -/
theorem handleSubmit_of_done (env : Env) (fd : FormData) (o : Option Outcome)
    (tr : List Effect) (h : tryBlock env fd o = ⟨tr, .done ()⟩) :
    handleSubmit env fd o = ⟨[.preventDefault, .setAuthState loadingState] ++ tr, .done ()⟩ := by
  simp [handleSubmit, Run.bind_eq, Run.bind, Run.emit, Run.tryCatch, h]

/-- The error picked by line 64 is never empty. -/
theorem errorMsg_truthy (err : JSValue) : truthy (errorMsg err) = true := by
  unfold errorMsg JSValue.orElse
  by_cases h1 : truthy (optIndex0 (optProp (optProp (optProp err (lit "response")) (lit "data"))
      (lit "non_field_errors"))) = true
  · simp [h1]
  · by_cases h2 : truthy (optProp err (lit "message")) = true
    · simp [h1, h2]
    · have h3 : truthy (str (lit "An error occurred. Please try again.")) = true := rfl
      simp [h1, h2, h3]

/-- Line 64 picks what the specification words. -/
theorem errorMsg_eq_preferredMessage (err : JSValue) : errorMsg err = preferredMessage err := by
  unfold errorMsg preferredMessage JSValue.orElse firstNonFieldError
  by_cases h1 : truthy (optIndex0 (optProp (optProp (optProp err (lit "response")) (lit "data"))
      (lit "non_field_errors"))) = true
  · simp [h1]
  · by_cases h2 : truthy (optProp err (lit "message")) = true
    · simp [h1, h2]
    · simp [h1, h2]

/-- The error picked for an error object that has only a message. -/
theorem errorMsg_mkError (m : JSString) :
    errorMsg (mkError m) =
      if m = [] then str (lit "An error occurred. Please try again.") else str m := by
  cases m <;> rfl

/-- The whole handler when the call succeeds. -/
theorem handleSubmit_succeeds (env : Env) (fd : FormData) (response : JSValue)
    (h : succeeds (.resolved response) = true) :
    handleSubmit env fd (some (.resolved response)) =
      ⟨[.preventDefault, .setAuthState loadingState, loginRequest env fd, .suspend,
        .dispatchLogin (obj [(lit "access", accessOf response),
          (lit "refresh", refreshOf response)]),
        .setAuthState successState, .navigate (lit "/dashboard")], .done ()⟩ := by
  rw [handleSubmit_of_done env fd _ _ (tryBlock_success env fd response h)]
  rfl

/-- When the call does not succeed the `try` block throws, right after the
call settled. -/
theorem tryBlock_fails (env : Env) (fd : FormData) (o : Outcome) (h : succeeds o = false) :
    ∃ err, tryBlock env fd (some o) = ⟨[loginRequest env fd, .suspend], .thrown err⟩ := by
  cases o with
  | resolved response =>
    obtain ⟨m, hm⟩ := tryBlock_missing env fd response h
    exact ⟨mkError m, hm⟩
  | rejected err => exact ⟨err, tryBlock_rejected env fd err⟩

/-- The whole handler when the call does not succeed. -/
theorem handleSubmit_fails (env : Env) (fd : FormData) (o : Outcome) (h : succeeds o = false) :
    ∃ err, tryBlock env fd (some o) = ⟨[loginRequest env fd, .suspend], .thrown err⟩ ∧
      handleSubmit env fd (some o) =
        ⟨[.preventDefault, .setAuthState loadingState, loginRequest env fd, .suspend,
          .setAuthState ⟨[], errorMsg err, false⟩], .done ()⟩ := by
  obtain ⟨err, he⟩ := tryBlock_fails env fd o h
  refine ⟨err, he, ?_⟩
  rw [handleSubmit_of_thrown env fd _ _ err he]
  rfl

/-- A call that succeeded is a resolved one. -/
theorem succeeds_resolved (o : Outcome) (h : succeeds o = true) :
    ∃ response, o = .resolved response := by
  cases o with
  | resolved response => exact ⟨response, rfl⟩
  | rejected err => simp [succeeds] at h

/-- The part of the handler after the `await`, when the call succeeds. -/
theorem resumeTrace_succeeds (env : Env) (fd : FormData) (response : JSValue)
    (h : succeeds (.resolved response) = true) :
    resumeTrace env fd (.resolved response) =
      [.dispatchLogin (obj [(lit "access", accessOf response),
          (lit "refresh", refreshOf response)]),
        .setAuthState successState, .navigate (lit "/dashboard")] := by
  simp [resumeTrace, handleSubmit_succeeds env fd response h, handleSubmit_pending]

/-- The part of the handler after the `await`, when the call does not
succeed. -/
theorem resumeTrace_fails (env : Env) (fd : FormData) (o : Outcome) (h : succeeds o = false) :
    ∃ err, resumeTrace env fd o = [.setAuthState ⟨[], errorMsg err, false⟩] := by
  obtain ⟨err, _, he⟩ := handleSubmit_fails env fd o h
  exact ⟨err, by simp [resumeTrace, he, handleSubmit_pending]⟩

/-- Reading back the key just written. -/
theorem getKey_setKey_same (k : JSString) (v : JSValue) (fd : FormData) :
    getKey (setKey k v fd) k = v := by
  induction fd with
  | nil => simp [setKey, getKey, List.lookup]
  | cons p rest ih =>
    obtain ⟨k0, v0⟩ := p
    by_cases h : k0 = k
    · subst h
      simp [setKey, getKey, List.lookup]
    · have h1 : (k == k0) = false := by simpa using fun e => h e.symm
      simp only [getKey] at ih
      simp [setKey, getKey, List.lookup, h, h1, ih]

/-- Writing a key leaves the other keys as they were. -/
theorem getKey_setKey_other (k other : JSString) (v : JSValue) (fd : FormData)
    (h : other ≠ k) : getKey (setKey k v fd) other = getKey fd other := by
  induction fd with
  | nil =>
    have h1 : (other == k) = false := by simpa using h
    simp [setKey, getKey, List.lookup, h1]
  | cons p rest ih =>
    obtain ⟨k0, v0⟩ := p
    simp only [getKey] at ih
    by_cases h0 : k0 = k
    · subst h0
      have h1 : (other == k0) = false := by simpa using h
      simp [setKey, getKey, List.lookup, h1]
    · by_cases h2 : other = k0
      · subst h2
        simp [setKey, getKey, List.lookup, h0]
      · have h3 : (other == k0) = false := by simpa using h2
        simp [setKey, getKey, List.lookup, h0, h3, ih]

/-- The FormData after `handleChange`. -/
theorem handleChange_formData (st : FormState) (name value : JSString) :
    (handleChange st name value).formData = setKey name (str value) st.formData := by
  unfold handleChange
  split <;> rfl

/-- The submissions in flight are not touched by `handleChange`. -/
theorem handleChange_inFlight (st : FormState) (name value : JSString) :
    (handleChange st name value).inFlight = st.inFlight := by
  unfold handleChange
  split <;> rfl

/-- The AuthUIState after `handleChange`. -/
theorem handleChange_authState (st : FormState) (name value : JSString) :
    (handleChange st name value).authState =
      if truthy st.authState.error then { st.authState with error := str [] }
      else st.authState := by
  unfold handleChange
  split <;> rfl

/-- The key `name` of the FormData after a sequence of keystrokes, from any
form. -/
theorem getKey_typeAll (name : JSString) (events : List (JSString × JSString))
    (st : FormState) :
    getKey (typeAll st events).formData name =
      match (events.filter fun e => e.1 == name).getLast? with
      | some e => str e.2
      | none => getKey st.formData name := by
  induction events using List.reverseRecOn with
  | nil => simp [typeAll]
  | append_singleton es e ih =>
    have hstep : typeAll st (es ++ [e]) = handleChange (typeAll st es) e.1 e.2 := by
      simp [typeAll, List.foldl_append]
    rw [hstep, handleChange_formData]
    by_cases h : e.1 = name
    · subst h
      rw [getKey_setKey_same]
      simp [List.filter_append]
    · rw [getKey_setKey_other _ _ _ _ (fun x => h x.symm), ih]
      have h1 : (e.1 == name) = false := by simpa using h
      simp [List.filter_append, List.filter_cons, h1]

/-! ## Lemmas on the transition system -/

/-- The AuthUIState after the rest of the handler has run. -/
theorem finalAuthState_resumeTrace (env : Env) (fd : FormData) (o : Outcome)
    (prior : AuthUIState) :
    (succeeds o = true ∧ finalAuthState prior (resumeTrace env fd o) = successState) ∨
      (succeeds o = false ∧
        ∃ err, finalAuthState prior (resumeTrace env fd o) = ⟨[], errorMsg err, false⟩) := by
  cases hs : succeeds o with
  | true =>
    obtain ⟨response, rfl⟩ := succeeds_resolved o hs
    left
    rw [resumeTrace_succeeds env fd response hs]
    exact ⟨rfl, rfl⟩
  | false =>
    obtain ⟨err, he⟩ := resumeTrace_fails env fd o hs
    right
    rw [he]
    exact ⟨rfl, err, rfl⟩

/-- The submit step, when it is possible. -/
theorem step_submit (env : Env) (st : FormState) (h : submitDisabled st.authState = false) :
    step env st .submit =
      some ⟨st.formData, loadingState, st.inFlight ++ [st.formData]⟩ := by
  simp [step, h, handleSubmit_pending, finalAuthState, applyAuth, loginRequest]

/-- The initial form is consistent. -/
theorem consistent_initialState : Consistent initialState :=
  ⟨Or.inl rfl, Or.inl rfl, rfl⟩

/-- Every step keeps the form consistent. -/
theorem consistent_step (env : Env) (st st1 : FormState) (e : Event)
    (h : step env st e = some st1) (hc : Consistent st) : Consistent st1 := by
  obtain ⟨h1, h2, h3⟩ := hc
  cases e with
  | change name value =>
    simp only [step, Option.some.injEq] at h
    subst h
    unfold Consistent
    rw [handleChange_authState, handleChange_inFlight]
    by_cases ht : truthy st.authState.error = true
    · rw [if_pos ht]
      exact ⟨Or.inr rfl, Or.inl rfl, h3⟩
    · rw [if_neg ht]
      exact ⟨h1, h2, h3⟩
  | submit =>
    by_cases hd : submitDisabled st.authState = true
    · simp [step, hd] at h
    · simp only [Bool.not_eq_true] at hd
      rw [step_submit env st hd] at h
      simp only [Option.some.injEq] at h
      subst h
      have hl : st.authState.loading = false := hd
      rw [hl] at h3
      refine ⟨Or.inl rfl, Or.inl rfl, ?_⟩
      simp at h3
      simp [h3, loadingState]
  | settle i o =>
    simp only [step] at h
    cases hg : st.inFlight[i]? with
    | none => simp [hg] at h
    | some fd =>
      simp only [hg, Option.some.injEq] at h
      subst h
      have hlt : i < st.inFlight.length := by
        obtain ⟨hlt, _⟩ := List.getElem?_eq_some_iff.mp hg
        exact hlt
      have hlen : st.inFlight.length = 1 := by
        by_cases hl : st.authState.loading = true
        · simpa [hl] using h3
        · simp [hl] at h3
          simp [h3] at hlt
      have herase : (st.inFlight.eraseIdx i).length = 0 := by
        rw [List.length_eraseIdx, if_pos hlt, hlen]
      rcases finalAuthState_resumeTrace env fd o st.authState with ⟨_, hf⟩ | ⟨_, err, hf⟩
      · refine ⟨Or.inr ?_, Or.inl ?_, ?_⟩
        · simp [hf, successState]
        · simp [hf, successState]
        · simp [hf, successState, herase]
      · refine ⟨Or.inl ?_, Or.inr ?_, ?_⟩
        · simp [hf]
        · simp [hf, errorMsg_truthy]
        · simp [hf, herase]

/-- Every state the form reaches from a consistent one is consistent. -/
theorem consistent_run (env : Env) (events : List Event) (st st1 : FormState)
    (h : run env st events = some st1) (hc : Consistent st) : Consistent st1 := by
  induction events generalizing st with
  | nil =>
    simp only [run, Option.some.injEq] at h
    subst h
    exact hc
  | cons e es ih =>
    simp only [run] at h
    cases hs : step env st e with
    | none => simp [hs] at h
    | some st2 =>
      simp only [hs, Option.bind] at h
      exact ih st2 h (consistent_step env st st2 e hs hc)

/-! ## The claims -/

/-- C1. When the call resolves with a response whose body carries an access
token `a` and a refresh token `r`, both non-empty strings, `handleSubmit`
ends normally and what it does after the call settles is, in this order: one
hand-off `dispatch(login({access: a, refresh: r}))`, the write of
`{message: 'Login successful!', error: '', loading: false}`, one navigation to
`/dashboard`. The whole trace is given, so each happens exactly once. -/
theorem handleSubmit_success_hands_off_then_navigates (env : Env) (fd : FormData)
    (response : JSValue) (a r : JSString)
    (ha : accessOf response = str a) (hr : refreshOf response = str r)
    (ha0 : a ≠ []) (hr0 : r ≠ []) :
    handleSubmit env fd (some (.resolved response)) =
        ⟨[.preventDefault, .setAuthState loadingState, loginRequest env fd, .suspend,
          .dispatchLogin (obj [(lit "access", str a), (lit "refresh", str r)]),
          .setAuthState ⟨lit "Login successful!", str [], false⟩,
          .navigate (lit "/dashboard")], .done ()⟩ ∧
      dispatchesOf (handleSubmit env fd (some (.resolved response))).trace =
        [obj [(lit "access", str a), (lit "refresh", str r)]] ∧
      navigationsOf (handleSubmit env fd (some (.resolved response))).trace =
        [lit "/dashboard"] ∧
      ∀ prior, finalAuthState prior (handleSubmit env fd (some (.resolved response))).trace =
        ⟨lit "Login successful!", str [], false⟩ := by
  have hs : succeeds (.resolved response) = true := by
    cases a with
    | nil => exact absurd rfl ha0
    | cons c cs =>
      cases r with
      | nil => exact absurd rfl hr0
      | cons d ds => simp [succeeds, ha, hr, truthy]
  rw [handleSubmit_succeeds env fd response hs, ha, hr]
  exact ⟨rfl, rfl, rfl, fun _ => rfl⟩

/-- The scenario of the specification: `user@example.com` / `secret1`, the
server returns `{access: 'A', refresh: 'R'}`. -/
theorem handleSubmit_success_scenario :
    handleSubmit scenarioEnv scenarioForm (some (.resolved tokenResponse)) =
        ⟨[.preventDefault, .setAuthState loadingState, loginRequest scenarioEnv scenarioForm,
          .suspend,
          .dispatchLogin (obj [(lit "access", str (lit "A")), (lit "refresh", str (lit "R"))]),
          .setAuthState ⟨lit "Login successful!", str [], false⟩,
          .navigate (lit "/dashboard")], .done ()⟩ ∧
      dispatchesOf (handleSubmit scenarioEnv scenarioForm (some (.resolved tokenResponse))).trace =
        [obj [(lit "access", str (lit "A")), (lit "refresh", str (lit "R"))]] ∧
      navigationsOf (handleSubmit scenarioEnv scenarioForm (some (.resolved tokenResponse))).trace =
        [lit "/dashboard"] ∧
      ∀ prior, finalAuthState prior
          (handleSubmit scenarioEnv scenarioForm (some (.resolved tokenResponse))).trace =
        ⟨lit "Login successful!", str [], false⟩ :=
  handleSubmit_success_hands_off_then_navigates scenarioEnv scenarioForm tokenResponse
    (lit "A") (lit "R") rfl rfl (by decide) (by decide)

/-- C2. When the call resolves with a response whose body lacks the access
token or the refresh token, or carries an empty one (any token that
JavaScript takes for false), `handleSubmit` makes no session hand-off and no
navigation, ends normally, and leaves the AuthUIState with an empty message,
an error that is a non-empty string, and `loading = false`. -/
theorem handleSubmit_missing_token_shows_error (env : Env) (fd : FormData)
    (response : JSValue)
    (h : truthy (accessOf response) = false ∨ truthy (refreshOf response) = false) :
    dispatchesOf (handleSubmit env fd (some (.resolved response))).trace = [] ∧
      navigationsOf (handleSubmit env fd (some (.resolved response))).trace = [] ∧
      (handleSubmit env fd (some (.resolved response))).completion = .done () ∧
      ∃ m : JSString, m ≠ [] ∧
        ∀ prior, finalAuthState prior (handleSubmit env fd (some (.resolved response))).trace =
          ⟨[], str m, false⟩ := by
  have hs : succeeds (.resolved response) = false := by
    rcases h with h | h <;> simp [succeeds, h]
  obtain ⟨m, hm⟩ := tryBlock_missing env fd response hs
  rw [handleSubmit_of_thrown env fd _ _ _ hm, errorMsg_mkError]
  refine ⟨rfl, rfl, rfl, ?_⟩
  by_cases h0 : m = []
  · exact ⟨lit "An error occurred. Please try again.", by decide, fun _ => by simp [h0]; rfl⟩
  · exact ⟨m, h0, fun _ => by simp [h0]; rfl⟩

/-- A response that carries an access token and no refresh token. -/
theorem handleSubmit_missing_token_scenario :
    dispatchesOf
        (handleSubmit scenarioEnv scenarioForm (some (.resolved accessOnlyResponse))).trace = [] ∧
      navigationsOf
        (handleSubmit scenarioEnv scenarioForm (some (.resolved accessOnlyResponse))).trace = [] ∧
      (handleSubmit scenarioEnv scenarioForm (some (.resolved accessOnlyResponse))).completion =
        .done () ∧
      ∃ m : JSString, m ≠ [] ∧
        ∀ prior, finalAuthState prior
            (handleSubmit scenarioEnv scenarioForm (some (.resolved accessOnlyResponse))).trace =
          ⟨[], str m, false⟩ :=
  handleSubmit_missing_token_shows_error scenarioEnv scenarioForm accessOnlyResponse
    (Or.inr rfl)

/-- C3. Whatever error the `try` block of `handleSubmit` raises, the handler
ends normally having written, last, `{message: '', error: m, loading: false}`
and having navigated nowhere, where `m` is the field-level error
`non_field_errors[0]` of the error when it is there and not empty, otherwise
the message of the error when it is not empty, otherwise
`An error occurred. Please try again.`. A rejection that carries
`non_field_errors = ['Invalid credentials']` shows `Invalid credentials`
whatever its own message, and a rejection with no response and the message
`Network Error` shows `Network Error`. -/
theorem handleSubmit_raised_error_shows_preferred_message (env : Env) (fd : FormData) :
    (∀ (o : Outcome) (err : JSValue),
      (tryBlock env fd (some o)).completion = .thrown err →
        handleSubmit env fd (some o) =
            ⟨[.preventDefault, .setAuthState loadingState, loginRequest env fd, .suspend,
              .setAuthState ⟨[], preferredMessage err, false⟩], .done ()⟩ ∧
          navigationsOf (handleSubmit env fd (some o)).trace = [] ∧
          ∀ prior, finalAuthState prior (handleSubmit env fd (some o)).trace =
            ⟨[], preferredMessage err, false⟩) ∧
      (∀ (message : JSValue) (prior : AuthUIState),
        finalAuthState prior
            (handleSubmit env fd (some (.rejected (invalidCredentials message)))).trace =
          ⟨[], str (lit "Invalid credentials"), false⟩) ∧
      (∀ prior : AuthUIState,
        finalAuthState prior (handleSubmit env fd (some (.rejected networkError))).trace =
          ⟨[], str (lit "Network Error"), false⟩) := by
  refine ⟨?_, ?_, ?_⟩
  · intro o err h
    have hs : succeeds o = false := by
      cases hb : succeeds o with
      | false => rfl
      | true =>
        obtain ⟨response, rfl⟩ := succeeds_resolved o hb
        rw [tryBlock_success env fd response hb] at h
        cases h
    obtain ⟨err1, ht, hh⟩ := handleSubmit_fails env fd o hs
    rw [ht] at h
    have he : err1 = err := by
      simpa using h
    subst he
    rw [hh, errorMsg_eq_preferredMessage]
    exact ⟨rfl, rfl, fun _ => rfl⟩
  · intro message prior
    rw [handleSubmit_of_thrown env fd _ _ _ (tryBlock_rejected env fd _)]
    rfl
  · intro prior
    rw [handleSubmit_of_thrown env fd _ _ _ (tryBlock_rejected env fd _)]
    rfl

/-- The two rejections of the specification, run on the scenario form: the
`try` block throws the rejection, and the handler shows the preferred
message. -/
theorem handleSubmit_rejection_scenarios :
    (tryBlock scenarioEnv scenarioForm (some (.rejected networkError))).completion =
        .thrown networkError ∧
      (handleSubmit scenarioEnv scenarioForm (some (.rejected networkError)) =
          ⟨[.preventDefault, .setAuthState loadingState,
            loginRequest scenarioEnv scenarioForm, .suspend,
            .setAuthState ⟨[], preferredMessage networkError, false⟩], .done ()⟩ ∧
        navigationsOf
          (handleSubmit scenarioEnv scenarioForm (some (.rejected networkError))).trace = [] ∧
        ∀ prior, finalAuthState prior
            (handleSubmit scenarioEnv scenarioForm (some (.rejected networkError))).trace =
          ⟨[], preferredMessage networkError, false⟩) ∧
      finalAuthState initialAuthState
        (handleSubmit scenarioEnv scenarioForm
          (some (.rejected (invalidCredentials
            (str (lit "Request failed with status code 401")))))).trace =
        ⟨[], str (lit "Invalid credentials"), false⟩ ∧
      finalAuthState initialAuthState
        (handleSubmit scenarioEnv scenarioForm (some (.rejected networkError))).trace =
        ⟨[], str (lit "Network Error"), false⟩ :=
  ⟨rfl,
    (handleSubmit_raised_error_shows_preferred_message scenarioEnv scenarioForm).1
      (.rejected networkError) networkError rfl,
    (handleSubmit_raised_error_shows_preferred_message scenarioEnv scenarioForm).2.1 _ _,
    (handleSubmit_raised_error_shows_preferred_message scenarioEnv scenarioForm).2.2 _⟩

/-- C4. After any finite sequence of change events handled by `handleChange`
from the initial FormData, `email` is the value of the last event named
`email` (the empty string when there is none) and `password` the value of the
last event named `password`; one `handleChange` stores the value as it is
under the name of the event and leaves every other key as it was. -/
theorem handleChange_keeps_last_value (events : List (JSString × JSString)) :
    getKey (typeAll initialState events).formData (lit "email") =
        str (lastValue (lit "email") events) ∧
      getKey (typeAll initialState events).formData (lit "password") =
        str (lastValue (lit "password") events) ∧
      ∀ (st : FormState) (name value : JSString),
        getKey (handleChange st name value).formData name = str value ∧
          ∀ other, other ≠ name →
            getKey (handleChange st name value).formData other = getKey st.formData other := by
  refine ⟨?_, ?_, ?_⟩
  · rw [getKey_typeAll, lastValue]
    cases (events.filter fun e => e.1 == lit "email").getLast? <;> rfl
  · rw [getKey_typeAll, lastValue]
    cases (events.filter fun e => e.1 == lit "password").getLast? <;> rfl
  · intro st name value
    rw [handleChange_formData]
    exact ⟨getKey_setKey_same _ _ _, fun other h => getKey_setKey_other _ _ _ _ h⟩

/-- Typing `a`, then a password, then `ab` in the email field. -/
theorem handleChange_keeps_last_value_scenario :
    getKey (typeAll initialState
        [(lit "email", lit "a"), (lit "password", lit "secret1"),
          (lit "email", lit "ab")]).formData (lit "email") = str (lit "ab") ∧
      getKey (typeAll initialState
        [(lit "email", lit "a"), (lit "password", lit "secret1"),
          (lit "email", lit "ab")]).formData (lit "password") = str (lit "secret1") :=
  ⟨(handleChange_keeps_last_value _).1, (handleChange_keeps_last_value _).2.1⟩

/-- C5. On an AuthUIState whose error is the empty string or a value that is
not empty (every string is one or the other, and the component stores nothing
else), `handleChange` yields an AuthUIState whose error is the empty string
and whose message and loading are unchanged; when the error was already the
empty string the AuthUIState is unchanged. Hence after the settlement of a
submission, failed or not, the first keystroke leaves no error displayed. -/
theorem handleChange_clears_error (st : FormState) (name value : JSString)
    (h : st.authState.error = str [] ∨ truthy st.authState.error = true) :
    (handleChange st name value).authState.error = str [] ∧
      (handleChange st name value).authState.message = st.authState.message ∧
      (handleChange st name value).authState.loading = st.authState.loading ∧
      (st.authState.error = str [] → (handleChange st name value).authState = st.authState) ∧
      ∀ (env : Env) (st0 st1 : FormState) (i : Nat) (o : Outcome),
        step env st0 (.settle i o) = some st1 →
          (handleChange st1 name value).authState.error = str [] := by
  have key : ∀ s : FormState, (s.authState.error = str [] ∨ truthy s.authState.error = true) →
      (handleChange s name value).authState.error = str [] := by
    intro s hs
    rw [handleChange_authState]
    by_cases ht : truthy s.authState.error = true
    · rw [if_pos ht]
    · rw [if_neg ht]
      rcases hs with hs | hs
      · exact hs
      · exact absurd hs ht
  refine ⟨key st h, ?_, ?_, ?_, ?_⟩
  · rw [handleChange_authState]
    split <;> rfl
  · rw [handleChange_authState]
    split <;> rfl
  · intro he
    rw [handleChange_authState, he]
    rfl
  · intro env st0 st1 i o hstep
    apply key
    simp only [step] at hstep
    cases hg : st0.inFlight[i]? with
    | none => simp [hg] at hstep
    | some fd =>
      simp only [hg, Option.some.injEq] at hstep
      subst hstep
      rcases finalAuthState_resumeTrace env fd o st0.authState with ⟨_, hf⟩ | ⟨_, err, hf⟩
      · left
        simp [hf, successState]
      · right
        simp [hf, errorMsg_truthy]

/-- A keystroke in the email field after a network error. -/
theorem handleChange_clears_error_scenario :
    (handleChange failedForm (lit "email") (lit "u")).authState.error = str [] ∧
      (handleChange failedForm (lit "email") (lit "u")).authState.message =
        failedForm.authState.message ∧
      (handleChange failedForm (lit "email") (lit "u")).authState.loading =
        failedForm.authState.loading ∧
      (failedForm.authState.error = str [] →
        (handleChange failedForm (lit "email") (lit "u")).authState = failedForm.authState) ∧
      ∀ (env : Env) (st0 st1 : FormState) (i : Nat) (o : Outcome),
        step env st0 (.settle i o) = some st1 →
          (handleChange st1 (lit "email") (lit "u")).authState.error = str [] :=
  handleChange_clears_error failedForm (lit "email") (lit "u") (Or.inr rfl)

/-- C6. Whatever the FormData and however the call settles (or while it has
not settled), the requests `handleSubmit` issues are exactly one: the POST to
the base URL followed by `/api/auth/jwt/create/`, with the body
`{email, password}` made of the two values held in the FormData. -/
theorem handleSubmit_issues_one_request (env : Env) (fd : FormData) (o : Option Outcome) :
    postsOf (handleSubmit env fd o).trace =
      [(env.prodBaseUrl ++ lit "/api/auth/jwt/create/",
        obj [(lit "email", getKey fd (lit "email")),
          (lit "password", getKey fd (lit "password"))])] := by
  cases o with
  | none => rw [handleSubmit_pending]; rfl
  | some o =>
    cases hs : succeeds o with
    | true =>
      obtain ⟨response, rfl⟩ := succeeds_resolved o hs
      rw [handleSubmit_succeeds env fd response hs]; rfl
    | false =>
      obtain ⟨err, _, he⟩ := handleSubmit_fails env fd o hs
      rw [he]; rfl

/-- The request of the scenario form. -/
theorem handleSubmit_issues_one_request_scenario :
    postsOf (handleSubmit scenarioEnv scenarioForm (some (.rejected networkError))).trace =
      [(lit "https://api.example.com/api/auth/jwt/create/",
        obj [(lit "email", str (lit "user@example.com")),
          (lit "password", str (lit "secret1"))])] :=
  handleSubmit_issues_one_request scenarioEnv scenarioForm (some (.rejected networkError))

/-- C7. However the call settles, `handleSubmit` ends normally (nothing is
thrown out of it), has issued its request once, and, unless the call
succeeded, has left the AuthUIState with an empty message, `loading = false`
and an error that is not empty. -/
theorem handleSubmit_catches_every_failure (env : Env) (fd : FormData) (o : Outcome) :
    (handleSubmit env fd (some o)).completion = .done () ∧
      (postsOf (handleSubmit env fd (some o)).trace).length = 1 ∧
      (succeeds o = false →
        ∀ prior,
          truthy (finalAuthState prior (handleSubmit env fd (some o)).trace).error = true ∧
            (finalAuthState prior (handleSubmit env fd (some o)).trace).error ≠ str [] ∧
            (finalAuthState prior (handleSubmit env fd (some o)).trace).message = [] ∧
            (finalAuthState prior (handleSubmit env fd (some o)).trace).loading = false) := by
  cases hs : succeeds o with
  | true =>
    obtain ⟨response, rfl⟩ := succeeds_resolved o hs
    rw [handleSubmit_succeeds env fd response hs]
    exact ⟨rfl, rfl, fun h => by cases h⟩
  | false =>
    obtain ⟨err, _, he⟩ := handleSubmit_fails env fd o hs
    rw [he]
    refine ⟨rfl, rfl, fun _ prior => ⟨errorMsg_truthy err, ?_, rfl, rfl⟩⟩
    intro h
    have ht := errorMsg_truthy err
    have h2 : errorMsg err = str [] := h
    rw [h2] at ht
    cases ht

/-- A rejection with nothing in it: `undefined`. -/
theorem handleSubmit_catches_undefined_scenario :
    (handleSubmit scenarioEnv scenarioForm (some (.rejected undefined))).completion = .done () ∧
      finalAuthState initialAuthState
        (handleSubmit scenarioEnv scenarioForm (some (.rejected undefined))).trace =
        ⟨[], str (lit "An error occurred. Please try again."), false⟩ :=
  ⟨(handleSubmit_catches_every_failure scenarioEnv scenarioForm (.rejected undefined)).1, rfl⟩

/-- C8. In every state the form reaches from the initial one by keystrokes,
submits and settlements, the message and the error are not both set; and
right after a settlement exactly one of them is: the message when the call
succeeded, the error when it did not. -/
theorem message_and_error_never_both_set (env : Env) (events : List Event) (st : FormState)
    (h : run env initialState events = some st) :
    ¬ (st.authState.message ≠ [] ∧ st.authState.error ≠ str []) ∧
      ∀ (i : Nat) (o : Outcome) (st1 : FormState),
        step env st (.settle i o) = some st1 →
          (succeeds o = true ∧ st1.authState.message ≠ [] ∧ st1.authState.error = str []) ∨
            (succeeds o = false ∧ st1.authState.message = [] ∧
              truthy st1.authState.error = true) := by
  obtain ⟨h1, _, _⟩ := consistent_run env events initialState st h consistent_initialState
  refine ⟨?_, ?_⟩
  · rintro ⟨hm, he⟩
    rcases h1 with h1 | h1
    · exact hm h1
    · exact he h1
  · intro i o st1 hstep
    simp only [step] at hstep
    cases hg : st.inFlight[i]? with
    | none => simp [hg] at hstep
    | some fd =>
      simp only [hg, Option.some.injEq] at hstep
      subst hstep
      rcases finalAuthState_resumeTrace env fd o st.authState with ⟨hs, hf⟩ | ⟨hs, err, hf⟩
      · left
        refine ⟨hs, ?_, ?_⟩
        · simp only [hf, successState]
          decide
        · simp [hf, successState]
      · right
        exact ⟨hs, by simp [hf], by simp [hf, errorMsg_truthy]⟩

/-- The form while its first call is pending, reached by one submit. -/
theorem message_and_error_never_both_set_scenario :
    ¬ (pendingForm.authState.message ≠ [] ∧ pendingForm.authState.error ≠ str []) ∧
      ∀ (i : Nat) (o : Outcome) (st1 : FormState),
        step scenarioEnv pendingForm (.settle i o) = some st1 →
          (succeeds o = true ∧ st1.authState.message ≠ [] ∧ st1.authState.error = str []) ∨
            (succeeds o = false ∧ st1.authState.message = [] ∧
              truthy st1.authState.error = true) :=
  message_and_error_never_both_set scenarioEnv [.submit] pendingForm rfl

/-- C9. The submit control is disabled exactly when `loading` is true, and in
every state the form reaches from the initial one a submission is in flight
exactly while `loading` is true, one at most: while a call is pending no
submit step is possible, and a submit that is possible starts from a form
with nothing in flight. -/
theorem submit_disabled_while_pending (env : Env) (events : List Event) (st : FormState)
    (h : run env initialState events = some st) :
    (submitDisabled st.authState = true ↔ st.authState.loading = true) ∧
      st.inFlight.length ≤ 1 ∧
      (st.authState.loading = true ↔ st.inFlight.length = 1) ∧
      (st.inFlight ≠ [] → step env st .submit = none) ∧
      ∀ st1, step env st .submit = some st1 →
        st.inFlight = [] ∧ st1.inFlight = [st.formData] ∧ st1.authState.loading = true := by
  obtain ⟨_, _, h3⟩ := consistent_run env events initialState st h consistent_initialState
  have hloading : st.authState.loading = true ↔ st.inFlight.length = 1 := by
    cases hl : st.authState.loading <;> simp [hl] at h3 <;> simp [h3]
  have hnone : st.inFlight ≠ [] → step env st .submit = none := by
    intro hne
    have hl : st.authState.loading = true := by
      cases hl : st.authState.loading
      · simp [hl] at h3
        exact absurd h3 hne
      · rfl
    simp [step, submitDisabled, hl]
  refine ⟨Iff.rfl, ?_, hloading, hnone, ?_⟩
  · cases hl : st.authState.loading <;> simp [hl] at h3 <;> simp [h3]
  · intro st1 hstep
    have hempty : st.inFlight = [] := by
      by_contra hne
      rw [hnone hne] at hstep
      cases hstep
    have hd : submitDisabled st.authState = false := by
      cases hd : submitDisabled st.authState
      · rfl
      · simp [step, hd] at hstep
    rw [step_submit env st hd] at hstep
    simp only [Option.some.injEq] at hstep
    subst hstep
    exact ⟨hempty, by simp [hempty], rfl⟩

/-- While the first call is pending a second submit is not possible. -/
theorem submit_disabled_while_pending_scenario :
    (submitDisabled pendingForm.authState = true ↔ pendingForm.authState.loading = true) ∧
      pendingForm.inFlight.length ≤ 1 ∧
      (pendingForm.authState.loading = true ↔ pendingForm.inFlight.length = 1) ∧
      (pendingForm.inFlight ≠ [] → step scenarioEnv pendingForm .submit = none) ∧
      ∀ st1, step scenarioEnv pendingForm .submit = some st1 →
        pendingForm.inFlight = [] ∧ st1.inFlight = [pendingForm.formData] ∧
          st1.authState.loading = true :=
  submit_disabled_while_pending scenarioEnv [.submit] pendingForm rfl

/-- C10. However the call settles, the trace of `handleSubmit` is the write
of `{message: '', error: '', loading: true}`, then the request and the
suspension at the `await`, then a rest that makes exactly one more write, of a
state with `loading = false`: two writes in all. From any prior AuthUIState
the state is the loading one while the call is pending and the settled one at
the end. -/
theorem handleSubmit_writes_loading_then_settled (env : Env) (fd : FormData) (o : Outcome) :
    ∃ (rest : List Effect) (settled : AuthUIState),
      (handleSubmit env fd none).trace =
          [.preventDefault, .setAuthState ⟨[], str [], true⟩, loginRequest env fd, .suspend] ∧
        (handleSubmit env fd (some o)).trace = (handleSubmit env fd none).trace ++ rest ∧
        authWrites rest = [settled] ∧ postsOf rest = [] ∧
        settled.loading = false ∧
        authWrites (handleSubmit env fd (some o)).trace = [⟨[], str [], true⟩, settled] ∧
        ∀ prior,
          finalAuthState prior (handleSubmit env fd none).trace = ⟨[], str [], true⟩ ∧
            finalAuthState prior (handleSubmit env fd (some o)).trace = settled := by
  cases hs : succeeds o with
  | true =>
    obtain ⟨response, rfl⟩ := succeeds_resolved o hs
    rw [handleSubmit_succeeds env fd response hs, handleSubmit_pending]
    exact ⟨_, successState, rfl, rfl, rfl, rfl, rfl, rfl, fun _ => ⟨rfl, rfl⟩⟩
  | false =>
    obtain ⟨err, _, he⟩ := handleSubmit_fails env fd o hs
    rw [he, handleSubmit_pending]
    exact ⟨_, ⟨[], errorMsg err, false⟩, rfl, rfl, rfl, rfl, rfl, rfl, fun _ => ⟨rfl, rfl⟩⟩

end Login
